import Mathlib

/-!
Verification of the `meta-ads-mcp` HTTP authentication integration
(`meta_ads_mcp/core/http_auth_integration.py`), the budget-schedule tool
(`meta_ads_mcp/core/budget_schedules.py`), and the login polling loop of
`meta_ads_mcp/core/server.py`, via a shallow embedding in Lean.

Python values of type `Optional[str]` are embedded as `Option String`;
Python truthiness of such a value (`if x:`) is `pyTruthy`, and the Python
`or` operator on them is `pyOr`.  HTTP header dictionaries are embedded as
association lists with exact-key lookup `dget`, mirroring `dict.get`.
-/

namespace MetaAdsMcp

/-- Python truthiness of an `Optional[str]` value: `None` and `""` are
falsy, every other string is truthy. -/
def pyTruthy : Option String → Bool
  | none => false
  | some s => s ≠ ""

/-- Python `a or b` on `Optional[str]` values: yields `a` when `a` is
truthy, otherwise `b`. -/
def pyOr (a b : Option String) : Option String :=
  if pyTruthy a then a else b

/-- Model of Python `str.lower()` (ASCII case mapping, which covers every
header value the extractor inspects). -/
def pyLower (s : String) : String :=
  ⟨s.data.map Char.toLower⟩

/-- Model of Python `str.startswith(p)`: `p`'s characters are a prefix of
`s`'s. -/
def pyStartsWith (s p : String) : Bool :=
  List.isPrefixOf p.data s.data

/-- Model of Python slicing `s[n:]`: drop the first `n` characters. -/
def pyDrop (s : String) (n : Nat) : String :=
  ⟨s.data.drop n⟩

/-- Model of Python `str.strip()`: remove leading and trailing whitespace
characters. -/
def pyStrip (s : String) : String :=
  ⟨((s.data.dropWhile Char.isWhitespace).reverse.dropWhile Char.isWhitespace).reverse⟩

/-- HTTP headers as passed to `extract_token_from_headers`: an embedding of
the Python `dict` built from the request headers (unique keys; lookup is by
exact key equality, as `dict.get` does). -/
def Headers := List (String × String)

/-- Embeds `headers.get(k)`: the value at the first binding of the exact
key `k`, or `none`. -/
def dget (h : Headers) (k : String) : Option String :=
  (List.find? (fun p => p.1 = k) h).map (fun p => p.2)

/-- Embeds the lookup
`headers.get('Authentication') or headers.get('authentication') or headers.get('authorization')`
from `extract_token_from_headers` (http_auth_integration.py line 53). -/
def authHeaderLookup (h : Headers) : Option String :=
  pyOr (pyOr (dget h "Authentication") (dget h "authentication")) (dget h "authorization")

/-- Embeds the lookup
`headers.get('X-META-ACCESS-TOKEN') or headers.get('x-meta-access-token')`
(http_auth_integration.py line 59). -/
def metaTokenLookup (h : Headers) : Option String :=
  pyOr (dget h "X-META-ACCESS-TOKEN") (dget h "x-meta-access-token")

/-- Embeds the lookup
`headers.get('X-PIPEBOARD-API-TOKEN') or headers.get('x-pipeboard-api-token')`
(http_auth_integration.py line 64). -/
def pipeboardTokenLookup (h : Headers) : Option String :=
  pyOr (dget h "X-PIPEBOARD-API-TOKEN") (dget h "x-pipeboard-api-token")

/-- Embeds the Python test
`auth_header and auth_header.lower().startswith('bearer ')`
(http_auth_integration.py line 54). -/
def bearerCheck : Option String → Bool
  | none => false
  | some v => v ≠ "" && pyStartsWith (pyLower v) "bearer "

/-- Embeds `FastMCPAuthIntegration.extract_token_from_headers`
(http_auth_integration.py lines 44-69): Bearer value of the
Authentication/authentication/authorization header first (sliced after the
7-character prefix and stripped), then the direct Meta header, then the
legacy Pipeboard header, else `None`. -/
def extract_token_from_headers (headers : Headers) : Option String :=
  let auth_header := authHeaderLookup headers
  if bearerCheck auth_header then
    some (pyStrip (pyDrop (auth_header.getD "") 7))
  else
    let meta_token := metaTokenLookup headers
    if pyTruthy meta_token then
      meta_token
    else
      let pipeboard_token := pipeboardTokenLookup headers
      if pyTruthy pipeboard_token then
        pipeboard_token
      else
        none

/-! ### The request-scoped credential store

The Python module keeps one `contextvars.ContextVar[Optional[str]]` named
`_auth_token` (default `None`).  Within a single request context its value
is an `Option String`; the three accessors of `FastMCPAuthIntegration`
become state transformers / readers on that value. -/

/-- Embeds `FastMCPAuthIntegration.set_auth_token`: `_auth_token.set(token)`. -/
def set_auth_token (token : String) (_store : Option String) : Option String :=
  some token

/-- Embeds `FastMCPAuthIntegration.get_auth_token`: `_auth_token.get(None)`. -/
def get_auth_token (store : Option String) : Option String :=
  store

/-- Embeds `FastMCPAuthIntegration.clear_auth_token`: `_auth_token.set(None)`. -/
def clear_auth_token (_store : Option String) : Option String :=
  none

/-- Embeds the patched `get_current_access_token_with_http_support`
(http_auth_integration.py lines 109-118): return the context-scoped token
when truthy, otherwise the result of the original
`get_current_access_token` (here passed in as the value `original`). -/
def get_current_access_token_with_http_support
    (store : Option String) (original : Option String) : Option String :=
  let context_token := get_auth_token store
  if pyTruthy context_token then context_token else original

/-! ### The HTTP middleware -/

/-- Outcome of the downstream handler `call_next`: normal completion or a
raised exception that propagates through the middleware. -/
inductive Outcome
  | ok
  | err
deriving DecidableEq

/-- Embeds `AuthInjectionMiddleware.dispatch`
(http_auth_integration.py lines 199-218) as a transformer of the
request-scoped store.  `handler` is the downstream `call_next`, which may
itself read or write the store and either complete or raise; the
middleware extracts a token, sets it when truthy, runs the handler, and in
a `finally` block clears the store exactly when a token had been set. -/
def dispatch (headers : Headers)
    (handler : Option String → Option String × Outcome)
    (store : Option String) : Option String × Outcome :=
  let token := extract_token_from_headers headers
  let store₁ := if pyTruthy token then set_auth_token (token.getD "") store else store
  let result := handler store₁
  let store₂ := if pyTruthy token then clear_auth_token result.1 else result.1
  (store₂, result.2)

/-- The class of a Starlette middleware entry, as compared by
`middleware_item.cls == AuthInjectionMiddleware` in
`setup_starlette_middleware`. -/
inductive MiddlewareCls
  | authInjection
  | other (name : String)
deriving DecidableEq

/-- Embeds `setup_starlette_middleware`
(http_auth_integration.py lines 220-246).  The app is `none` when the
Python argument is falsy (the function returns without touching it);
otherwise it carries its `user_middleware` list.  A scan for
`AuthInjectionMiddleware` guards the `app.add_middleware` call, which
prepends the new entry (Starlette inserts at position 0). -/
def setup_starlette_middleware (app : Option (List MiddlewareCls)) :
    Option (List MiddlewareCls) :=
  match app with
  | none => none
  | some mws =>
    if MiddlewareCls.authInjection ∈ mws then
      some mws
    else
      some (MiddlewareCls.authInjection :: mws)

/-- Number of `AuthInjectionMiddleware` entries installed on an app. -/
def authMiddlewareCount : Option (List MiddlewareCls) → Nat
  | none => 0
  | some mws => mws.count MiddlewareCls.authInjection

/-! ### The budget-schedule tool (budget_schedules.py)

`create_budget_schedule` validates its arguments, then POSTs to the Graph
API and serializes the outcome with `json.dumps(..., indent=2)`.  The
serializer is modelled for the object shapes this function builds. -/

/-- JSON string escaping as performed by `json.dumps` on the characters
occurring here (backslash and double quote). -/
def jescapeChar (c : Char) : List Char :=
  if c = '"' then ['\\', '"']
  else if c = '\\' then ['\\', '\\']
  else [c]

/-- A JSON string literal: `json.dumps` rendering of a Python `str`. -/
def jstring (s : String) : String :=
  ⟨'"' :: (s.data.flatMap jescapeChar) ++ ['"']⟩

/-- Model of `json.dumps({"error": msg}, indent=2)`. -/
def dumpsErrorObj (msg : String) : String :=
  "\x7b\n  \"error\": " ++ jstring msg ++ "\n\x7d"

/-- The `params` dictionary sent to the `{campaign_id}/budget_schedules`
endpoint. -/
structure BudgetParams where
  budget_value : Int
  budget_value_type : String
  time_start : Int
  time_end : Int
deriving DecidableEq

/-- Model of the `indent=2` rendering of the `params` dictionary when it
appears nested under the `"params_sent"` key. -/
def dumpsParamsNested (p : BudgetParams) : String :=
  "\x7b\n    \"budget_value\": " ++ toString p.budget_value ++
  ",\n    \"budget_value_type\": " ++ jstring p.budget_value_type ++
  ",\n    \"time_start\": " ++ toString p.time_start ++
  ",\n    \"time_end\": " ++ toString p.time_end ++ "\n  \x7d"

/-- Model of the `json.dumps(..., indent=2)` rendering of the error object
built in the `except` branch of `create_budget_schedule`. -/
def dumpsApiFailure (details campaign_id : String) (p : BudgetParams) : String :=
  "\x7b\n  \"error\": \"Failed to create budget schedule\"" ++
  ",\n  \"details\": " ++ jstring details ++
  ",\n  \"campaign_id\": " ++ jstring campaign_id ++
  ",\n  \"params_sent\": " ++ dumpsParamsNested p ++ "\n\x7d"

/-- Embeds `create_budget_schedule` (budget_schedules.py lines 38-71).

Arguments that Python allows to be `None` are `Option`s; `api` stands for
`await make_api_request(endpoint, access_token, params, method="POST")`,
returning either the serialized response data (`.ok`) or raising an
exception whose `str(e)` is the `.error` payload.  The result is the JSON
string the tool returns, paired with whether the API request was made. -/
def create_budget_schedule (campaign_id : Option String)
    (budget_value : Option Int) (budget_value_type : Option String)
    (time_start : Option Int) (time_end : Option Int)
    (api : BudgetParams → Except String String) : String × Bool :=
  if !pyTruthy campaign_id then
    (dumpsErrorObj "Campaign ID is required", false)
  else if budget_value = none then
    (dumpsErrorObj "Budget value is required", false)
  else if !pyTruthy budget_value_type then
    (dumpsErrorObj "Budget value type is required", false)
  else if !(["ABSOLUTE", "MULTIPLIER"].contains (budget_value_type.getD "")) then
    (dumpsErrorObj "Invalid budget_value_type. Must be ABSOLUTE or MULTIPLIER", false)
  else if time_start = none then
    (dumpsErrorObj "Time start is required", false)
  else if time_end = none then
    (dumpsErrorObj "Time end is required", false)
  else
    let params : BudgetParams :=
      ⟨budget_value.getD 0, budget_value_type.getD "", time_start.getD 0, time_end.getD 0⟩
    match api params with
    | .ok data => (data, true)
    | .error e => (dumpsApiFailure e (campaign_id.getD "") params, true)

/-! ### The interactive login polling loop (server.py `main`)

When Pipeboard authentication is configured and no valid token is cached,
`main` opens the browser and polls `get_access_token(force_refresh=True)`
up to `max_attempts = 30` times, sleeping 2 seconds after each failed
attempt, breaking as soon as a token is obtained; afterwards the function
falls through to the transport startup code in every case. -/

/-- Embeds the `for attempt in range(remaining)` polling loop.  `fetch i`
is the result of the `i`-th call to
`pipeboard_auth_manager.get_access_token(force_refresh=True)`; `tok` is
the value the `token` variable holds on entry.  Returns the final value of
`token`, the number of fetch attempts made, and the total seconds slept. -/
def pollLoop (fetch : Nat → Option String) : Nat → Nat → Option String →
    Option String × Nat × Nat
  | _, 0, tok => (tok, 0, 0)
  | i, r + 1, _ =>
    let t := fetch i
    if pyTruthy t then
      (t, 1, 0)
    else
      let rest := pollLoop fetch (i + 1) r t
      (rest.1, rest.2.1 + 1, rest.2.2 + 2)

/-- What `main` does after its early-return flags: the `--version` and
`--login` branches return immediately; otherwise, when a Pipeboard API
token is configured, the cached token is checked and the polling loop may
run, after which (token or not) control reaches the transport startup. -/
inductive MainAction
  | returnVersion
  | returnLogin
  | startTransport
deriving DecidableEq

/-- Embeds the control flow of `main` (server.py lines 263-320) around the
polling loop: `versionFlag`/`loginFlag` are `args.version`/`args.login`;
`envToken` is `os.environ.get("PIPEBOARD_API_TOKEN")`; `cachedToken` the
initial `pipeboard_auth_manager.get_access_token()`; `loginUrl` the
`auth_data.get('loginUrl')` of the initiated flow.  Returns the action
`main` proceeds with together with the polling loop's result (token,
attempts, seconds slept). -/
def mainAuthFlow (versionFlag loginFlag : Bool) (envToken : Option String)
    (cachedToken : Option String) (loginUrl : Option String)
    (fetch : Nat → Option String) : MainAction × Option String × Nat × Nat :=
  if versionFlag then
    (MainAction.returnVersion, none, 0, 0)
  else if loginFlag then
    (MainAction.returnLogin, none, 0, 0)
  else if pyTruthy envToken then
    if pyTruthy cachedToken then
      (MainAction.startTransport, cachedToken, 0, 0)
    else if pyTruthy loginUrl then
      (MainAction.startTransport, pollLoop fetch 0 30 cachedToken)
    else
      (MainAction.startTransport, cachedToken, 0, 0)
  else
    (MainAction.startTransport, none, 0, 0)

/-- The header names the extractor ever consults (the exact spellings
appearing in http_auth_integration.py lines 53-64). -/
def recognizedHeaderKeys : List String :=
  ["Authentication", "authentication", "authorization",
   "X-META-ACCESS-TOKEN", "x-meta-access-token",
   "X-PIPEBOARD-API-TOKEN", "x-pipeboard-api-token"]

/-! ## Theorems -/

/-- Helper: when the Authentication-header lookup finds a value that
case-insensitively starts with `"Bearer "`, the extractor returns the
stripped remainder after the 7-character prefix. -/
theorem extract_of_bearer (h : Headers) (v : String)
    (hv : authHeaderLookup h = some v)
    (hb : pyStartsWith (pyLower v) "bearer " = true) :
    extract_token_from_headers h = some (pyStrip (pyDrop v 7)) := by
  have hne : v ≠ "" := by
    rintro rfl
    exact absurd hb (by decide)
  simp [extract_token_from_headers, hv, bearerCheck, hne, hb]

/-- Claim C2: the extractor implements the fixed four-step precedence,
first match wins, no merging.  When the Authentication-header lookup finds
a value that case-insensitively starts with `"Bearer "`, the result is the
substring after the 7-character prefix, stripped — regardless of any
other headers.  Otherwise the direct Meta header wins when present and
non-empty; otherwise the legacy Pipeboard header; otherwise the result is
empty.  An Authentication value that is not Bearer-prefixed falls through
to the later steps. -/
theorem claim2_extractor_precedence (h : Headers) :
    (∀ v, authHeaderLookup h = some v →
      pyStartsWith (pyLower v) "bearer " = true →
      extract_token_from_headers h = some (pyStrip (pyDrop v 7)))
    ∧ (bearerCheck (authHeaderLookup h) = false →
      ∀ m, metaTokenLookup h = some m → m ≠ "" →
        extract_token_from_headers h = some m)
    ∧ (bearerCheck (authHeaderLookup h) = false →
      pyTruthy (metaTokenLookup h) = false →
      ∀ p, pipeboardTokenLookup h = some p → p ≠ "" →
        extract_token_from_headers h = some p)
    ∧ (bearerCheck (authHeaderLookup h) = false →
      pyTruthy (metaTokenLookup h) = false →
      pyTruthy (pipeboardTokenLookup h) = false →
        extract_token_from_headers h = none) := by
  refine ⟨?_, ?_, ?_, ?_⟩
  · exact fun v hv hb => extract_of_bearer h v hv hb
  · intro hbc m hm hne
    have hmt : pyTruthy (some m) = true := by simp [pyTruthy, hne]
    simp [extract_token_from_headers, hbc, hm, hmt]
  · intro hbc hmt p hp hne
    have hpt : pyTruthy (some p) = true := by simp [pyTruthy, hne]
    simp [extract_token_from_headers, hbc, hmt, hp, hpt]
  · intro hbc hmt hpt
    simp [extract_token_from_headers, hbc, hmt, hpt]

/-- Witness for C2: each precedence step exercised at a concrete input. -/
theorem claim2_witness :
    extract_token_from_headers [("Authentication", "BEARER  tok ")] = some "tok"
    ∧ extract_token_from_headers
        [("Authentication", "Token x"), ("x-meta-access-token", "mt")] = some "mt"
    ∧ extract_token_from_headers [("x-pipeboard-api-token", "pb")] = some "pb"
    ∧ extract_token_from_headers [("X-META-ACCESS-TOKEN", "")] = none := by
  refine ⟨?_, ?_, ?_, ?_⟩
  · exact (claim2_extractor_precedence _).1 "BEARER  tok " (by decide) (by decide)
  · exact (claim2_extractor_precedence _).2.1 (by decide) "mt" (by decide) (by decide)
  · exact (claim2_extractor_precedence _).2.2.1 (by decide) (by decide) "pb" (by decide)
      (by decide)
  · exact (claim2_extractor_precedence _).2.2.2 (by decide) (by decide) (by decide)

/-- Claim C7: the extractor is total and pure — it is a Lean function on
arbitrary header mappings, so it terminates and has no side effects by
construction — and a mapping containing none of the recognized headers,
or carrying only malformed (non-Bearer) or empty values, yields the empty
result rather than an error. -/
theorem claim7_extractor_total (h : Headers) :
    ((∀ k ∈ recognizedHeaderKeys, dget h k = none) →
      extract_token_from_headers h = none)
    ∧ (bearerCheck (authHeaderLookup h) = false →
      pyTruthy (metaTokenLookup h) = false →
      pyTruthy (pipeboardTokenLookup h) = false →
      extract_token_from_headers h = none) := by
  constructor
  · intro hk
    have h1 := hk "Authentication" (by decide)
    have h2 := hk "authentication" (by decide)
    have h3 := hk "authorization" (by decide)
    have h4 := hk "X-META-ACCESS-TOKEN" (by decide)
    have h5 := hk "x-meta-access-token" (by decide)
    have h6 := hk "X-PIPEBOARD-API-TOKEN" (by decide)
    have h7 := hk "x-pipeboard-api-token" (by decide)
    simp [extract_token_from_headers, authHeaderLookup, metaTokenLookup,
      pipeboardTokenLookup, pyOr, pyTruthy, bearerCheck,
      h1, h2, h3, h4, h5, h6, h7]
  · intro hbc hmt hpt
    simp [extract_token_from_headers, hbc, hmt, hpt]

/-- Witness for C7: a mapping with none of the recognized headers, and a
mapping with only malformed or empty values, both yield `none`. -/
theorem claim7_witness :
    extract_token_from_headers [("Content-Type", "application/json")] = none
    ∧ extract_token_from_headers
        [("Authentication", "Token abc"), ("X-META-ACCESS-TOKEN", "")] = none := by
  constructor
  · exact (claim7_extractor_total _).1 (by decide)
  · exact (claim7_extractor_total _).2 (by decide) (by decide) (by decide)

/-- Counterexample for C5: the extractor is not case-insensitive in the
header names — the spelling `"Authorization"` (capital A) is never
consulted, so it does not yield the same credential as the all-lowercase
spelling. -/
theorem claim5_counterexample :
    ¬ (extract_token_from_headers [("Authorization", "Bearer abc123")] =
       extract_token_from_headers [("authorization", "Bearer abc123")]) := by
  decide

/-- Claim C5 (amended): the extractor consults exactly the seven spellings
`Authentication`, `authentication`, `authorization`, `X-META-ACCESS-TOKEN`,
`x-meta-access-token`, `X-PIPEBOARD-API-TOKEN`, `x-pipeboard-api-token`.
For each recognized capitalized spelling the result agrees with the
all-lowercase spelling, and the result depends on the mapping only through
the values at those seven keys — any other case mixture (such as
`Authorization` or `X-Meta-Access-Token`) is never read. -/
theorem claim5_amended_checked_spellings (v : String) :
    (extract_token_from_headers [("Authentication", v)] =
      extract_token_from_headers [("authentication", v)])
    ∧ (extract_token_from_headers [("X-META-ACCESS-TOKEN", v)] =
      extract_token_from_headers [("x-meta-access-token", v)])
    ∧ (extract_token_from_headers [("X-PIPEBOARD-API-TOKEN", v)] =
      extract_token_from_headers [("x-pipeboard-api-token", v)])
    ∧ ∀ h₁ h₂ : Headers,
      (∀ k ∈ recognizedHeaderKeys, dget h₁ k = dget h₂ k) →
      extract_token_from_headers h₁ = extract_token_from_headers h₂ := by
  refine ⟨?_, ?_, ?_, ?_⟩
  · by_cases hv : v = "" <;>
      simp [extract_token_from_headers, authHeaderLookup, metaTokenLookup,
        pipeboardTokenLookup, dget, pyOr, pyTruthy, bearerCheck, hv]
  · by_cases hv : v = "" <;>
      simp [extract_token_from_headers, authHeaderLookup, metaTokenLookup,
        pipeboardTokenLookup, dget, pyOr, pyTruthy, bearerCheck, hv]
  · by_cases hv : v = "" <;>
      simp [extract_token_from_headers, authHeaderLookup, metaTokenLookup,
        pipeboardTokenLookup, dget, pyOr, pyTruthy, bearerCheck, hv]
  · intro h₁ h₂ hk
    have e1 := hk "Authentication" (by decide)
    have e2 := hk "authentication" (by decide)
    have e3 := hk "authorization" (by decide)
    have e4 := hk "X-META-ACCESS-TOKEN" (by decide)
    have e5 := hk "x-meta-access-token" (by decide)
    have e6 := hk "X-PIPEBOARD-API-TOKEN" (by decide)
    have e7 := hk "x-pipeboard-api-token" (by decide)
    simp only [extract_token_from_headers, authHeaderLookup, metaTokenLookup,
      pipeboardTokenLookup, e1, e2, e3, e4, e5, e6, e7]

/-- Witness for C5 (amended): concrete agreement of the checked spellings,
and the key-extensionality applied at two mappings agreeing on all seven
recognized keys. -/
theorem claim5_amended_witness :
    (extract_token_from_headers [("X-META-ACCESS-TOKEN", "mt")] =
      extract_token_from_headers [("x-meta-access-token", "mt")])
    ∧ (extract_token_from_headers [("Authorization", "Bearer abc123")] =
      extract_token_from_headers [("Irrelevant", "x")]) := by
  constructor
  · exact (claim5_amended_checked_spellings "mt").2.1
  · exact (claim5_amended_checked_spellings "").2.2.2
      [("Authorization", "Bearer abc123")] [("Irrelevant", "x")] (by decide)

/-- Claim C10: when the Authentication-header lookup yields `"Bearer "`
followed by whitespace only (equivalently: a Bearer-prefixed value whose
remainder strips to the empty string), the extractor returns the empty
string — a present-but-empty credential, not the absent value — and the
middleware's truthiness test then treats it as no token: the dispatch is a
no-op on the store, and resolution from an unpopulated store falls through
to the process-wide fallback. -/
theorem claim10_bearer_whitespace (h : Headers) (v : String)
    (hv : authHeaderLookup h = some v)
    (hb : pyStartsWith (pyLower v) "bearer " = true)
    (hw : pyStrip (pyDrop v 7) = "") :
    extract_token_from_headers h = some ""
    ∧ (∀ handler store, dispatch h handler store = handler store)
    ∧ (∀ fallback, get_current_access_token_with_http_support none fallback = fallback) := by
  have hx : extract_token_from_headers h = some "" := by
    have := extract_of_bearer h v hv hb
    rw [this, hw]
  refine ⟨hx, ?_, ?_⟩
  · intro handler store
    simp [dispatch, hx, pyTruthy]
  · intro fallback
    simp [get_current_access_token_with_http_support, get_auth_token, pyTruthy]

/-- Witness for C10 at the concrete header value `"Bearer   "`. -/
theorem claim10_witness :
    extract_token_from_headers [("Authentication", "Bearer   ")] = some ""
    ∧ dispatch [("Authentication", "Bearer   ")] (fun s => (s, Outcome.ok)) none =
      (none, Outcome.ok)
    ∧ get_current_access_token_with_http_support none (some "fb") = some "fb" := by
  have h := claim10_bearer_whitespace [("Authentication", "Bearer   ")] "Bearer   "
    (by decide) (by decide) (by decide)
  exact ⟨h.1, h.2.1 (fun s => (s, Outcome.ok)) none, h.2.2 (some "fb")⟩

/-- Claim C3: the resolution facade consults the request-scoped store
first and the process-wide fallback only on miss.  When the store holds a
non-empty token the result is that token, independent of whatever the
original accessor would return (so the fallback is not consulted); when
the store is not truthy the result is exactly the original accessor's
value; and an empty store combined with an empty accessor result yields
empty, not an error. -/
theorem claim3_resolution_precedence (store o₁ o₂ : Option String) :
    (∀ t, store = some t → t ≠ "" →
      get_current_access_token_with_http_support store o₁ = some t
      ∧ get_current_access_token_with_http_support store o₁ =
        get_current_access_token_with_http_support store o₂)
    ∧ (pyTruthy (get_auth_token store) = false →
      get_current_access_token_with_http_support store o₁ = o₁)
    ∧ get_current_access_token_with_http_support none none = none := by
  refine ⟨?_, ?_, ?_⟩
  · rintro t rfl hne
    simp [get_current_access_token_with_http_support, get_auth_token, pyTruthy, hne]
  · intro hf
    simp only [get_auth_token] at hf
    simp [get_current_access_token_with_http_support, get_auth_token, hf]
  · simp [get_current_access_token_with_http_support, get_auth_token, pyTruthy]

/-- Witness for C3: the request-scoped token `"rs"` wins over two
different fallbacks, and an untruthy store defers to the fallback. -/
theorem claim3_witness :
    get_current_access_token_with_http_support (some "rs") (some "fb") = some "rs"
    ∧ get_current_access_token_with_http_support (some "rs") (some "fb") =
      get_current_access_token_with_http_support (some "rs") none
    ∧ get_current_access_token_with_http_support (some "") (some "fb") = some "fb" := by
  refine ⟨?_, ?_, ?_⟩
  · exact ((claim3_resolution_precedence (some "rs") (some "fb") none).1 "rs" rfl
      (by decide)).1
  · exact ((claim3_resolution_precedence (some "rs") (some "fb") none).1 "rs" rfl
      (by decide)).2
  · exact (claim3_resolution_precedence (some "") (some "fb") none).2.1 (by decide)

/-- Claim C4: the middleware's cleanup protocol.  When a truthy credential
is extracted from the headers, the downstream handler runs with the store
populated by `set_auth_token`, and on every exit path — normal completion
and raised error alike, since the handler's outcome is arbitrary — the
`finally` block leaves the store cleared.  When no truthy credential is
extracted, the middleware performs no store write at all: the request is
exactly the downstream handler. -/
theorem claim4_middleware_cleanup (h : Headers)
    (handler : Option String → Option String × Outcome) (store : Option String) :
    (∀ t, extract_token_from_headers h = some t → t ≠ "" →
      dispatch h handler store = (none, (handler (set_auth_token t store)).2))
    ∧ (pyTruthy (extract_token_from_headers h) = false →
      dispatch h handler store = handler store) := by
  constructor
  · intro t hx hne
    simp [dispatch, hx, pyTruthy, hne, set_auth_token, clear_auth_token]
  · intro hx
    simp [dispatch, hx]

/-- Witness for C4: a request carrying a Bearer token runs the handler on
the populated store and ends with the store cleared, for a succeeding and
for a raising handler alike; a request with no token leaves the store
untouched. -/
theorem claim4_witness :
    dispatch [("authorization", "Bearer tok")] (fun s => (s, Outcome.ok)) none =
      (none, Outcome.ok)
    ∧ dispatch [("authorization", "Bearer tok")] (fun s => (s, Outcome.err)) none =
      (none, Outcome.err)
    ∧ dispatch [] (fun s => (s, Outcome.ok)) (some "pre") = (some "pre", Outcome.ok) := by
  refine ⟨?_, ?_, ?_⟩
  · exact (claim4_middleware_cleanup [("authorization", "Bearer tok")]
      (fun s => (s, Outcome.ok)) none).1 "tok" (by decide) (by decide)
  · exact (claim4_middleware_cleanup [("authorization", "Bearer tok")]
      (fun s => (s, Outcome.err)) none).1 "tok" (by decide) (by decide)
  · exact (claim4_middleware_cleanup [] (fun s => (s, Outcome.ok)) (some "pre")).2
      (by decide)

/-- Helper: once the auth middleware is installed, a further
`setup_starlette_middleware` is the identity. -/
theorem setup_fixed_of_mem {mws : List MiddlewareCls}
    (hmem : MiddlewareCls.authInjection ∈ mws) :
    setup_starlette_middleware (some mws) = some mws := by
  simp [setup_starlette_middleware, hmem]

/-- Claim C6: middleware attachment is idempotent.  A second application
of `setup_starlette_middleware` changes nothing, and starting from an app
with no `AuthInjectionMiddleware` installed, any positive number of
applications leaves exactly one entry in the middleware stack. -/
theorem claim6_attachment_idempotent :
    (∀ app, setup_starlette_middleware (setup_starlette_middleware app) =
      setup_starlette_middleware app)
    ∧ ∀ mws : List MiddlewareCls, mws.count MiddlewareCls.authInjection = 0 →
      ∀ n, 1 ≤ n →
        authMiddlewareCount (setup_starlette_middleware^[n] (some mws)) = 1 := by
  constructor
  · intro app
    match app with
    | none => rfl
    | some mws =>
      by_cases hmem : MiddlewareCls.authInjection ∈ mws
      · rw [setup_fixed_of_mem hmem, setup_fixed_of_mem hmem]
      · have h1 : setup_starlette_middleware (some mws) =
            some (MiddlewareCls.authInjection :: mws) := by
          simp [setup_starlette_middleware, hmem]
        rw [h1, setup_fixed_of_mem (List.mem_cons_self _ _)]
  · intro mws hcount n hn
    obtain ⟨m, rfl⟩ : ∃ m, n = m + 1 := ⟨n - 1, by omega⟩
    have hnotmem : MiddlewareCls.authInjection ∉ mws := by
      exact List.count_eq_zero.mp hcount
    have h1 : setup_starlette_middleware (some mws) =
        some (MiddlewareCls.authInjection :: mws) := by
      simp [setup_starlette_middleware, hnotmem]
    rw [Function.iterate_succ_apply, h1,
      Function.iterate_fixed (setup_fixed_of_mem (List.mem_cons_self _ _)) m]
    simp [authMiddlewareCount, List.count_cons_self, hcount]

/-- Witness for C6: attaching twice to a fresh app yields exactly one
entry. -/
theorem claim6_witness :
    authMiddlewareCount
      (setup_starlette_middleware^[2] (some [MiddlewareCls.other "cors"])) = 1 := by
  exact claim6_attachment_idempotent.2 [MiddlewareCls.other "cors"] (by decide) 2
    (by decide)

/-- Claim C8: `create_budget_schedule` converts failures into structured
output instead of crashing.  Being a total Lean function, it returns a
JSON string on every input.  Each validation failure — missing or empty
campaign id, `None` budget value, missing/empty or invalid budget value
type, `None` start or end time — yields the corresponding JSON error
object with the API never invoked (second component `false`), and an
exception raised by the API call is caught and rendered as a JSON error
object carrying the error details, the campaign id and the parameters
sent. -/
theorem claim8_budget_schedule_errors (campaign_id : Option String)
    (budget_value : Option Int) (budget_value_type : Option String)
    (time_start time_end : Option Int)
    (api : BudgetParams → Except String String) :
    (pyTruthy campaign_id = false →
      create_budget_schedule campaign_id budget_value budget_value_type
        time_start time_end api = (dumpsErrorObj "Campaign ID is required", false))
    ∧ (pyTruthy campaign_id = true → budget_value = none →
      create_budget_schedule campaign_id budget_value budget_value_type
        time_start time_end api = (dumpsErrorObj "Budget value is required", false))
    ∧ (pyTruthy campaign_id = true → budget_value ≠ none →
      pyTruthy budget_value_type = false →
      create_budget_schedule campaign_id budget_value budget_value_type
        time_start time_end api = (dumpsErrorObj "Budget value type is required", false))
    ∧ (pyTruthy campaign_id = true → budget_value ≠ none →
      pyTruthy budget_value_type = true →
      budget_value_type.getD "" ∉ ["ABSOLUTE", "MULTIPLIER"] →
      create_budget_schedule campaign_id budget_value budget_value_type
        time_start time_end api =
        (dumpsErrorObj "Invalid budget_value_type. Must be ABSOLUTE or MULTIPLIER", false))
    ∧ (pyTruthy campaign_id = true → budget_value ≠ none →
      pyTruthy budget_value_type = true →
      budget_value_type.getD "" ∈ ["ABSOLUTE", "MULTIPLIER"] →
      time_start = none →
      create_budget_schedule campaign_id budget_value budget_value_type
        time_start time_end api = (dumpsErrorObj "Time start is required", false))
    ∧ (pyTruthy campaign_id = true → budget_value ≠ none →
      pyTruthy budget_value_type = true →
      budget_value_type.getD "" ∈ ["ABSOLUTE", "MULTIPLIER"] →
      time_start ≠ none → time_end = none →
      create_budget_schedule campaign_id budget_value budget_value_type
        time_start time_end api = (dumpsErrorObj "Time end is required", false))
    ∧ ∀ params : BudgetParams,
      params = ⟨budget_value.getD 0, budget_value_type.getD "",
        time_start.getD 0, time_end.getD 0⟩ →
      pyTruthy campaign_id = true → budget_value ≠ none →
      pyTruthy budget_value_type = true →
      budget_value_type.getD "" ∈ ["ABSOLUTE", "MULTIPLIER"] →
      time_start ≠ none → time_end ≠ none →
      (∀ e, api params = Except.error e →
        create_budget_schedule campaign_id budget_value budget_value_type
          time_start time_end api =
          (dumpsApiFailure e (campaign_id.getD "") params, true))
      ∧ (∀ d, api params = Except.ok d →
        create_budget_schedule campaign_id budget_value budget_value_type
          time_start time_end api = (d, true)) := by
  refine ⟨?_, ?_, ?_, ?_, ?_, ?_, ?_⟩
  · intro h1
    simp [create_budget_schedule, h1]
  · intro h1 h2
    simp [create_budget_schedule, h1, h2]
  · intro h1 h2 h3
    simp [create_budget_schedule, h1, h2, h3]
  · intro h1 h2 h3 h4
    simp [create_budget_schedule, h1, h2, h3, h4]
  · intro h1 h2 h3 h4 h5
    simp [create_budget_schedule, h1, h2, h3, h4, h5]
  · intro h1 h2 h3 h4 h5 h6
    simp [create_budget_schedule, h1, h2, h3, h4, h5, h6]
  · rintro params rfl h1 h2 h3 h4 h5 h6
    constructor
    · intro e he
      simp [create_budget_schedule, h1, h2, h3, h4, h5, h6, he]
    · intro d hd
      simp [create_budget_schedule, h1, h2, h3, h4, h5, h6, hd]

/-- Witness for C8: a missing campaign id yields the validation error with
no API call; a raising API call on valid arguments is converted into the
structured failure object. -/
theorem claim8_witness :
    create_budget_schedule none (some 500) (some "ABSOLUTE") (some 0) (some 100)
      (fun _ => Except.ok "d") = (dumpsErrorObj "Campaign ID is required", false)
    ∧ create_budget_schedule (some "c1") (some 500) (some "ABSOLUTE") (some 0)
      (some 100) (fun _ => Except.error "network down") =
      (dumpsApiFailure "network down" "c1" ⟨500, "ABSOLUTE", 0, 100⟩, true) := by
  constructor
  · exact (claim8_budget_schedule_errors none (some 500) (some "ABSOLUTE") (some 0)
      (some 100) (fun _ => Except.ok "d")).1 (by decide)
  · exact (((claim8_budget_schedule_errors (some "c1") (some 500) (some "ABSOLUTE")
      (some 0) (some 100) (fun _ => Except.error "network down")).2.2.2.2.2.2
      ⟨500, "ABSOLUTE", 0, 100⟩ (by decide) (by decide) (by decide) (by decide)
      (by decide) (by decide) (by decide)).1 "network down" rfl)

/-- Helper: the number of fetch attempts the polling loop makes never
exceeds its attempt budget. -/
theorem pollLoop_attempts_le (fetch : Nat → Option String) :
    ∀ r i t₀, (pollLoop fetch i r t₀).2.1 ≤ r := by
  intro r
  induction r with
  | zero => intro i t₀; simp [pollLoop]
  | succ m ih =>
    intro i t₀
    by_cases ht : pyTruthy (fetch i) = true
    · simp [pollLoop, ht]
    · rw [Bool.not_eq_true] at ht
      simp only [pollLoop, ht, Bool.false_eq_true, if_false]
      exact Nat.succ_le_succ (ih (i + 1) (fetch i))

/-- Helper: when every attempt in the budget fails, the loop runs the full
budget, sleeps two seconds per attempt, and ends with the last fetched
(falsy) value. -/
theorem pollLoop_all_fail (fetch : Nat → Option String) :
    ∀ r i t₀, r ≠ 0 → (∀ j, j < r → pyTruthy (fetch (i + j)) = false) →
      pollLoop fetch i r t₀ = (fetch (i + r - 1), r, 2 * r) := by
  intro r
  induction r with
  | zero => intro i t₀ h; exact absurd rfl h
  | succ m ih =>
    intro i t₀ _ hall
    have h0 : pyTruthy (fetch i) = false := by simpa using hall 0 (by omega)
    by_cases hm : m = 0
    · subst hm
      simp [pollLoop, h0]
    · have hrec := ih (i + 1) (fetch i) hm
        (fun j hj => by
          have := hall (j + 1) (by omega)
          have hidx : i + 1 + j = i + (j + 1) := by omega
          rw [hidx]; exact this)
      simp only [pollLoop, h0, Bool.false_eq_true, if_false, hrec, Prod.mk.injEq]
      exact ⟨congrArg fetch (by omega), trivial, by omega⟩

/-- Helper: when the first truthy fetch is attempt `k` (counting from 0),
the loop stops right there: `k + 1` attempts, `2 * k` seconds slept, and
the fetched token returned. -/
theorem pollLoop_first_success (fetch : Nat → Option String) :
    ∀ k i r t₀, k < r → pyTruthy (fetch (i + k)) = true →
      (∀ j, j < k → pyTruthy (fetch (i + j)) = false) →
      pollLoop fetch i r t₀ = (fetch (i + k), k + 1, 2 * k) := by
  intro k
  induction k with
  | zero =>
    intro i r t₀ hr ht _
    obtain ⟨m, rfl⟩ : ∃ m, r = m + 1 := ⟨r - 1, by omega⟩
    simp only [Nat.add_zero] at ht
    simp [pollLoop, ht]
  | succ k ih =>
    intro i r t₀ hr ht hall
    obtain ⟨m, rfl⟩ : ∃ m, r = m + 1 := ⟨r - 1, by omega⟩
    have h0 : pyTruthy (fetch i) = false := by simpa using hall 0 (by omega)
    have hrec := ih (i + 1) m (fetch i) (by omega)
      (by
        have hidx : i + 1 + k = i + (k + 1) := by omega
        rw [hidx]; exact ht)
      (fun j hj => by
        have := hall (j + 1) (by omega)
        have hidx : i + 1 + j = i + (j + 1) := by omega
        rw [hidx]; exact this)
    simp only [pollLoop, h0, Bool.false_eq_true, if_false, hrec, Prod.mk.injEq]
    exact ⟨congrArg fetch (by omega), trivial, by omega⟩

/-- Claim C9: the interactive login polling loop is a bounded retry with
fixed parameters.  With `main`'s flags clear, Pipeboard configured, no
valid cached token, and a login URL obtained, `main` runs the polling
loop with budget 30 and proceeds to transport startup in every case; the
loop makes at most 30 attempts, stops at the first truthy fetch (having
slept a fixed 2 seconds after each of the earlier failed attempts, with no
backoff), and when all 30 attempts fail it ends after 60 seconds of sleep
with no token — and startup still happens. -/
theorem claim9_polling_bounded (envToken cachedToken loginUrl : Option String)
    (fetch : Nat → Option String)
    (henv : pyTruthy envToken = true) (hcache : pyTruthy cachedToken = false)
    (hurl : pyTruthy loginUrl = true) :
    (mainAuthFlow false false envToken cachedToken loginUrl fetch).1 =
      MainAction.startTransport
    ∧ (mainAuthFlow false false envToken cachedToken loginUrl fetch).2 =
      pollLoop fetch 0 30 cachedToken
    ∧ (pollLoop fetch 0 30 cachedToken).2.1 ≤ 30
    ∧ (∀ k, k < 30 → pyTruthy (fetch k) = true →
        (∀ j, j < k → pyTruthy (fetch j) = false) →
        pollLoop fetch 0 30 cachedToken = (fetch k, k + 1, 2 * k))
    ∧ ((∀ k, k < 30 → pyTruthy (fetch k) = false) →
        pollLoop fetch 0 30 cachedToken = (fetch 29, 30, 60)
        ∧ pyTruthy (fetch 29) = false) := by
  refine ⟨?_, ?_, pollLoop_attempts_le fetch 30 0 cachedToken, ?_, ?_⟩
  · simp [mainAuthFlow, henv, hcache, hurl]
  · simp [mainAuthFlow, henv, hcache, hurl]
  · intro k hk ht hall
    have := pollLoop_first_success fetch k 0 30 cachedToken hk
      (by simpa using ht) (fun j hj => by simpa using hall j hj)
    simpa using this
  · intro hall
    have := pollLoop_all_fail fetch 30 0 cachedToken (by omega)
      (fun j hj => by simpa using hall j hj)
    exact ⟨by simpa using this, hall 29 (by omega)⟩

/-- Witness for C9: with a fetch that first succeeds on the third attempt,
`main` starts the transport and the loop stops after 3 attempts and 4
seconds of sleep; with a never-succeeding fetch it exhausts all 30
attempts and 60 seconds. -/
theorem claim9_witness :
    (mainAuthFlow false false (some "pb") none (some "url")
      (fun i => if i = 2 then some "tok" else none)).1 = MainAction.startTransport
    ∧ pollLoop (fun i => if i = 2 then some "tok" else none) 0 30 none =
      (some "tok", 3, 4)
    ∧ pollLoop (fun _ => none) 0 30 none = (none, 30, 60) := by
  refine ⟨?_, ?_, ?_⟩
  · exact (claim9_polling_bounded (some "pb") none (some "url")
      (fun i => if i = 2 then some "tok" else none) (by decide) (by decide)
      (by decide)).1
  · exact (claim9_polling_bounded (some "pb") none (some "url")
      (fun i => if i = 2 then some "tok" else none) (by decide) (by decide)
      (by decide)).2.2.2.1 2 (by decide) (by decide) (by decide)
  · exact ((claim9_polling_bounded (some "pb") none (some "url") (fun _ => none)
      (by decide) (by decide) (by decide)).2.2.2.2 (by decide)).1

end MetaAdsMcp
